import Mathlib

/-!
Shallow embedding of `src/components/AIAssistant.tsx` (the "AssistantDialog"
modal component) and proofs about its observable behavior.

Modelling conventions:
* Component state (`useState` hooks) is an explicit `DialogState` record; each
  event handler becomes a pure function from the pre-event state (plus the
  inbound props and, for a submission, the eventual completion result of the
  external inference call) to the post-event state together with the
  externally observable effects (the issued request payload, callback
  invocations).
* React state setters do not mutate the bindings captured by closures of the
  current render: a handler invoked synchronously after a setter still reads
  the old value.  Functions therefore take the closed-over `query` /
  `intention` values as explicit arguments where the source reads them from a
  closure.
* The external inference collaborator (`callAIAssistantDirect`) is out of
  scope; a submission's completion is a parameter of type
  `Except JSError AIResponse`.  A JavaScript `throw` delivers either an
  `Error` object carrying a `message` string, or some non-`Error` value.
* `window.confirm` is a blocking boolean input, modelled as a `Bool` argument
  consulted only when the handler actually calls it.
* Rendering, icons and CSS are decoration and not modelled.
-/

/-- The four mutually exclusive intention presets
(`useState<'fix' | 'optimize' | 'brainstorm' | 'explain'>`). -/
inductive Intention where
  | fix
  | optimize
  | explain
  | brainstorm
deriving DecidableEq, Repr

/-- One entry of `intentionConfig`: temperature, label and description. -/
structure IntentionConfig where
  temperature : ℚ
  label : String
  description : String
deriving DecidableEq, Repr

/-- The `intentionConfig` map of AIAssistant.tsx (lines 37–42). -/
def intentionConfig : Intention → IntentionConfig
  | .fix => ⟨0.1, "🐛 Fix Bugs", "Precise fixes, low creativity"⟩
  | .optimize => ⟨0.2, "⚡ Optimize", "Performance improvements"⟩
  | .explain => ⟨0.3, "📚 Explain", "Clear explanations"⟩
  | .brainstorm => ⟨0.7, "💡 Brainstorm", "Creative ideas, high creativity"⟩

/-- The `AIResponse` interface: `{suggestion, explanation, confidence}`. -/
structure AIResponse where
  suggestion : String
  explanation : String
  confidence : ℚ
deriving DecidableEq, Repr

/-- The component's local state: the five `useState` hooks
(`query`, `response`, `loading`, `error`, `intention`). -/
structure DialogState where
  query : String
  response : Option AIResponse
  loading : Bool
  error : Option String
  intention : Intention
deriving DecidableEq, Repr

/-- Initial hook values: `'', null, false, null, 'fix'`. -/
def initialState : DialogState :=
  { query := "", response := none, loading := false, error := none,
    intention := .fix }

/-- Inbound props of the component (`AIAssistantProps`).  The two function
props `onClose` / `onApplySuggestion` are callbacks; for the apply callback
only its presence matters to control flow, recorded as `hasApplyCallback`. -/
structure Props where
  isOpen : Bool
  code : String
  language : String
  fileName : Option String
  hasApplyCallback : Bool
deriving DecidableEq, Repr

/-- The request payload handed to `callAIAssistantDirect` (lines 94–101). -/
structure RequestPayload where
  code : String
  language : String
  fileName : Option String
  prompt : String
  context : String
  temperature : ℚ
deriving DecidableEq, Repr

/-- The fixed context string of the payload (line 99). -/
def aiContext : String :=
  "WebXR development with A-Frame, Three.js, and modern web technologies"

/-- A JavaScript thrown value as discriminated by `err instanceof Error`:
either an `Error` object with its `message` string (possibly empty, as for
`new Error()`), or any non-`Error` value. -/
inductive JSError where
  | jsError (message : String)
  | other
deriving DecidableEq, Repr

/-- Outcome of the awaited external inference call. -/
abbrev SubmitResult := Except JSError AIResponse

/-- `err instanceof Error ? err.message : 'Failed to get AI response'`
(line 104). -/
def errorMessage : JSError → String
  | .jsError m => m
  | .other => "Failed to get AI response"

/-- JavaScript `String.prototype.trim()`: strip leading and trailing
whitespace. -/
def jsTrim (s : String) : String :=
  ⟨((s.data.dropWhile Char.isWhitespace).reverse.dropWhile
      Char.isWhitespace).reverse⟩

/-- `const prompt = customPrompt || query` (line 86).  JavaScript `||` treats
the empty string as falsy, so an explicit empty custom prompt falls back to
the closed-over query value. -/
def effectivePrompt (customPrompt : Option String) (query : String) : String :=
  match customPrompt with
  | some p => if p = "" then query else p
  | none => query

/-- Synchronous prefix of `handleSubmit` (lines 85–91): the early return on a
whitespace-only effective prompt, else clearing `error`/`response` and setting
`loading` before the external call is awaited.  Returns the state reached
before the `await` together with whether a request will be issued. -/
def submitStart (customPrompt : Option String) (closedQuery : String)
    (s : DialogState) : DialogState × Bool :=
  if jsTrim (effectivePrompt customPrompt closedQuery) = "" then (s, false)
  else ({ s with loading := true, error := none, response := none }, true)

/-- The payload construction of lines 94–101, reading `code` / `language` /
`fileName` from props and `query` / `intention` from the render closure. -/
def buildPayload (customPrompt : Option String) (closedQuery : String)
    (closedIntention : Intention) (p : Props) : RequestPayload :=
  { code := p.code
    language := p.language.toLower
    fileName := p.fileName
    prompt := effectivePrompt customPrompt closedQuery
    context := aiContext
    temperature := (intentionConfig closedIntention).temperature }

/-- The `try`/`catch`/`finally` completion of `handleSubmit` (lines 93–108):
on success store the data as the response, on failure store the derived error
message; in both cases `finally` clears `loading`. -/
def submitComplete (result : SubmitResult) (s : DialogState) : DialogState :=
  match result with
  | .ok data => { s with response := some data, loading := false }
  | .error e => { s with error := some (errorMessage e), loading := false }

/-- `handleSubmit` in full (lines 85–109), as a function of the closed-over
`query` and `intention` values, the props, and the completion result of the
external call.  Returns the final state and the issued request (if any). -/
def handleSubmit (customPrompt : Option String) (closedQuery : String)
    (closedIntention : Intention) (p : Props) (result : SubmitResult)
    (s : DialogState) : DialogState × Option RequestPayload :=
  let st := submitStart customPrompt closedQuery s
  if st.2 then
    (submitComplete result st.1,
      some (buildPayload customPrompt closedQuery closedIntention p))
  else (st.1, none)

/-- `handleSubmit` as triggered from the UI (Ask button / Enter key): the
closure holds the current state's `query` and `intention`. -/
def handleSubmitUI (customPrompt : Option String) (p : Props)
    (result : SubmitResult) (s : DialogState) :
    DialogState × Option RequestPayload :=
  handleSubmit customPrompt s.query s.intention p result s

/-- Selecting an intention via its button (line 181): a pure state
transition. -/
def selectIntention (i : Intention) (s : DialogState) : DialogState :=
  { s with intention := i }

/-- One entry of the static `quickPrompts` catalog (icon omitted: pure
decoration). -/
structure QuickPrompt where
  text : String
  prompt : String
  intention : Intention
deriving DecidableEq, Repr

/-- The `quickPrompts` catalog (lines 58–83). -/
def quickPrompts : List QuickPrompt :=
  [ ⟨"Fix bugs and errors",
     "Please review this code and identify any bugs, errors, or potential issues. Provide fixes and explanations.",
     .fix⟩,
    ⟨"Optimize performance",
     "Please analyze this code for performance improvements and optimization opportunities. Suggest specific changes.",
     .optimize⟩,
    ⟨"Add new features",
     "Please suggest how to add new features or functionality to this code. Provide code examples and implementation details.",
     .brainstorm⟩,
    ⟨"Improve code quality",
     "Please review this code and suggest improvements for readability, maintainability, and best practices.",
     .explain⟩ ]

/-- `handleQuickPrompt` (lines 111–117): `setIntention(intention)` and
`setQuery(prompt)` schedule state updates, then `handleSubmit(prompt)` runs.
Crucially, `handleSubmit` reads `query` and `intention` from the *current
render's closure*, so it sees the pre-update values `s.query` / `s.intention`
even though the scheduled updates land in the final state. -/
def handleQuickPrompt (prompt : String) (newIntention : Option Intention)
    (p : Props) (result : SubmitResult) (s : DialogState) :
    DialogState × Option RequestPayload :=
  let afterSetters :=
    match newIntention with
    | some i => { s with intention := i, query := prompt }
    | none => { s with query := prompt }
  handleSubmit (some prompt) s.query s.intention p result afterSetters

/-- Observable effects of one invocation of `handleApplySuggestion`. -/
structure ApplyResult where
  confirmAsked : Bool
  appliedWith : Option String
  closedDialog : Bool
deriving DecidableEq, Repr

/-- `startsWith` on character lists: does the first list begin with the
second? -/
def listStartsWith : List Char → List Char → Bool
  | _, [] => true
  | [], _ :: _ => false
  | a :: as, b :: bs => a == b && listStartsWith as bs

/-- Does the first character list contain the second as a contiguous
sublist? -/
def listContainsSub : List Char → List Char → Bool
  | [], needle => listStartsWith [] needle
  | a :: t, needle => listStartsWith (a :: t) needle || listContainsSub t needle

/-- JavaScript `haystack.includes(needle)`. -/
def includesSubstr (haystack needle : String) : Bool :=
  listContainsSub haystack.data needle.data

/-- The full-document-replacement test of line 123:
`suggestion.includes('<!DOCTYPE') || suggestion.includes('<html')`. -/
def isFullDocumentSuggestion (suggestion : String) : Bool :=
  includesSubstr suggestion "<!DOCTYPE" || includesSubstr suggestion "<html"

/-- `handleApplySuggestion` (lines 119–135).  The guard
`response?.suggestion && onApplySuggestion` requires a present response with a
non-empty (truthy) suggestion and a supplied apply callback; the handler calls
no state setter, so the state is returned unchanged. -/
def handleApplySuggestion (s : DialogState) (hasCallback : Bool)
    (confirmAnswer : Bool) : DialogState × ApplyResult :=
  match s.response with
  | none => (s, ⟨false, none, false⟩)
  | some r =>
    if r.suggestion != "" && hasCallback then
      if isFullDocumentSuggestion r.suggestion then
        if confirmAnswer then (s, ⟨true, some r.suggestion, true⟩)
        else (s, ⟨true, none, false⟩)
      else (s, ⟨false, some r.suggestion, true⟩)
    else (s, ⟨false, none, false⟩)

/-- The Escape-key `useEffect` (lines 45–56) attaches the `keydown` listener
only while `open` is true and removes it in the cleanup. -/
def escapeListenerAttached (isOpen : Bool) : Bool := isOpen

/-- The `handleEscape` listener body (lines 46–50):
`event.key === 'Escape' && open`. -/
def handleEscape (key : String) (isOpen : Bool) : Bool :=
  key == "Escape" && isOpen

/-- Number of `onClose` invocations caused by one keydown event: the single
listener fires only if attached, and closes only per `handleEscape`. -/
def escapeCloseCount (isOpen : Bool) (key : String) : Nat :=
  if escapeListenerAttached isOpen then
    if handleEscape key isOpen then 1 else 0
  else 0

/-- A DOM click event, identifying elements by numeric id: `target` is the
element clicked, `currentTarget` the element the handler is attached to
(the backdrop). -/
structure ClickEvent where
  target : Nat
  currentTarget : Nat
deriving DecidableEq, Repr

/-- The backdrop `onClick` handler (lines 142–146): invokes `onClose` iff
`e.target === e.currentTarget`. -/
def backdropOnClick (e : ClickEvent) : Bool :=
  e.target == e.currentTarget

/-- Concrete props used by closed example runs. -/
def demoProps : Props :=
  { isOpen := true, code := "<a-scene></a-scene>", language := "HTML",
    fileName := some "index.html", hasApplyCallback := true }

/-- Concrete successful response used by closed example runs. -/
def demoResponse : AIResponse :=
  ⟨"<a-scene><a-box></a-box></a-scene>", "added a box", 0.9⟩

/-- The `quickPrompts` entry "Add new features" (brainstorm intention). -/
def featurePrompt : String :=
  "Please suggest how to add new features or functionality to this code. Provide code examples and implementation details."

/-- A state with leftovers of an earlier failed and an earlier successful
interaction, used to exercise the clearing behavior. -/
def staleState : DialogState :=
  { query := "", response := some demoResponse, loading := false,
    error := some "old failure", intention := .explain }

/-- A suggestion that is a full-document replacement. -/
def docSuggestion : String :=
  "<!DOCTYPE html><html><body></body></html>"

/-- A response carrying the full-document suggestion. -/
def docResponseFull : AIResponse :=
  ⟨docSuggestion, "full document", 0.8⟩

/-- A dialog state holding the full-document response. -/
def docState : DialogState :=
  { initialState with response := some docResponseFull }

/-- A dialog state whose response carries an empty suggestion. -/
def emptySuggestionState : DialogState :=
  { initialState with response := some ⟨"", "nothing to suggest", 1⟩ }

/-- C1: activating the quick prompt "Add new features" (declared intention
`brainstorm`, temperature 0.7) from the default state (intention `fix`) does
set the intention to `brainstorm` and issue one request with the verbatim
prompt — but the issued request's temperature is 0.1, the temperature of the
intention selected *before* the activation, because `handleSubmit` reads
`intention` from the render-time closure that `setIntention` does not update.
This contradicts the claim that the temperature equals the quick prompt's
declared intention's value regardless of the prior selection. -/
theorem quickPromptStaleTemperature :
    QuickPrompt.mk "Add new features" featurePrompt Intention.brainstorm
        ∈ quickPrompts ∧
    (handleQuickPrompt featurePrompt (some Intention.brainstorm) demoProps
        (Except.ok demoResponse) initialState).1.intention =
      Intention.brainstorm ∧
    (handleQuickPrompt featurePrompt (some Intention.brainstorm) demoProps
        (Except.ok demoResponse) initialState).1.query = featurePrompt ∧
    (handleQuickPrompt featurePrompt (some Intention.brainstorm) demoProps
        (Except.ok demoResponse) initialState).2.map RequestPayload.prompt =
      some featurePrompt ∧
    (handleQuickPrompt featurePrompt (some Intention.brainstorm) demoProps
        (Except.ok demoResponse) initialState).2.map
        RequestPayload.temperature = some (0.1 : ℚ) ∧
    (intentionConfig Intention.brainstorm).temperature = (0.7 : ℚ) ∧
    (0.1 : ℚ) ≠ (0.7 : ℚ) :=
  ⟨by decide, rfl, rfl, rfl, rfl, rfl, by norm_num⟩

/-- C2 (amended): a completed submission that passed the non-empty-prompt
check always ends with `loading = false`; on success the response is exactly
the returned data and the error is null; on failure the response is null and
the error is non-null, holding the thrown `Error`'s message when the failure
is an `Error` object (which may be the empty string) and the generic fallback
string otherwise. -/
theorem submitCompletionOutcome (cp : Option String) (p : Props)
    (res : SubmitResult) (s : DialogState)
    (h : jsTrim (effectivePrompt cp s.query) ≠ "") :
    (handleSubmitUI cp p res s).1.loading = false ∧
    (∀ d, res = Except.ok d →
      (handleSubmitUI cp p res s).1.response = some d ∧
      (handleSubmitUI cp p res s).1.error = none) ∧
    (∀ e, res = Except.error e →
      (handleSubmitUI cp p res s).1.response = none ∧
      (handleSubmitUI cp p res s).1.error = some (errorMessage e)) ∧
    (∀ m, errorMessage (JSError.jsError m) = m) ∧
    errorMessage JSError.other = "Failed to get AI response" := by
  unfold handleSubmitUI handleSubmit submitStart
  simp only [if_neg h]
  cases res <;> simp [submitComplete, errorMessage]

/-- C2 witness: a concrete successful completion. -/
theorem submitCompletionOutcomeWitness :
    jsTrim (effectivePrompt (some "hello") initialState.query) ≠ "" ∧
    (handleSubmitUI (some "hello") demoProps (Except.ok demoResponse)
        initialState).1.loading = false ∧
    (handleSubmitUI (some "hello") demoProps (Except.ok demoResponse)
        initialState).1.response = some demoResponse ∧
    (handleSubmitUI (some "hello") demoProps (Except.ok demoResponse)
        initialState).1.error = none :=
  have h := submitCompletionOutcome (some "hello") demoProps
    (Except.ok demoResponse) initialState (by decide)
  ⟨by decide, h.1, (h.2.1 demoResponse rfl).1, (h.2.1 demoResponse rfl).2⟩

/-- C2 counterexample: when the external call fails with an `Error` object
whose `message` is the empty string, the stored error is `some ""` — non-null
but with an EMPTY message, and not the generic fallback — refuting the claim
that a failure always leaves a non-empty message. -/
theorem errorEmptyMessageCounterexample :
    (handleSubmitUI (some "hello") demoProps
        (Except.error (JSError.jsError "")) initialState).1.loading = false ∧
    (handleSubmitUI (some "hello") demoProps
        (Except.error (JSError.jsError "")) initialState).1.response = none ∧
    (handleSubmitUI (some "hello") demoProps
        (Except.error (JSError.jsError "")) initialState).1.error = some "" ∧
    ∀ m : String,
      (handleSubmitUI (some "hello") demoProps
          (Except.error (JSError.jsError "")) initialState).1.error = some m →
      ¬ m ≠ "" := by
  refine ⟨rfl, rfl, rfl, fun m hm => ?_⟩
  have : m = "" := by
    have : (some "" : Option String) = some m := by rw [← hm]; rfl
    exact (Option.some_injective _ this).symm
  simp [this]

/-- C3 (amended): whenever the *effective* prompt — the explicit custom
prompt if non-empty, otherwise the query field value — trims to the empty
string, the submission is a no-op: no request is issued and the state
(loading, response, error, and everything else) is unchanged. -/
theorem emptyEffectivePromptNoop (cp : Option String) (p : Props)
    (res : SubmitResult) (s : DialogState)
    (h : jsTrim (effectivePrompt cp s.query) = "") :
    handleSubmitUI cp p res s = (s, none) := by
  unfold handleSubmitUI handleSubmit submitStart
  simp [h]

/-- C3 witness: an explicit whitespace-only prompt is a no-op even when the
query field holds a substantive value. -/
theorem emptyEffectivePromptNoopWitness :
    jsTrim (effectivePrompt (some "   ") "hello") = "" ∧
    handleSubmitUI (some "   ") demoProps (Except.ok demoResponse)
        { initialState with query := "hello" } =
      ({ initialState with query := "hello" }, none) :=
  ⟨by decide,
    emptyEffectivePromptNoop (some "   ") demoProps (Except.ok demoResponse)
      { initialState with query := "hello" } (by decide)⟩

/-- C3 counterexample: the explicit prompt `""` trims to the empty string,
yet submitting it with query field `"hello"` is NOT a no-op: JavaScript
`customPrompt || query` lets the empty custom prompt fall back to the query,
so a request (with prompt `"hello"`) is issued and the state changes. -/
theorem emptyCustomPromptCounterexample :
    jsTrim "" = "" ∧
    (handleSubmitUI (some "") demoProps (Except.ok demoResponse)
        { initialState with query := "hello" }).2 =
      some (buildPayload (some "") "hello" Intention.fix demoProps) ∧
    (handleSubmitUI (some "") demoProps (Except.ok demoResponse)
        { initialState with query := "hello" }).2 ≠ none ∧
    (handleSubmitUI (some "") demoProps (Except.ok demoResponse)
        { initialState with query := "hello" }).1.response ≠
      ({ initialState with query := "hello" } : DialogState).response := by
  refine ⟨rfl, rfl, fun hn => ?_, fun hn => ?_⟩
  · rw [show (handleSubmitUI (some "") demoProps (Except.ok demoResponse)
        { initialState with query := "hello" }).2 =
      some (buildPayload (some "") "hello" Intention.fix demoProps) from rfl]
      at hn
    exact Option.noConfusion hn
  · rw [show (handleSubmitUI (some "") demoProps (Except.ok demoResponse)
        { initialState with query := "hello" }).1.response =
      some demoResponse from rfl] at hn
    exact Option.noConfusion hn

/-- C4: a submission that passes the non-empty-prompt precondition reaches,
before the external inference call is awaited, exactly the state with the
previous response and error cleared and loading set to true. -/
theorem submitStartClearsState (cp : Option String) (closedQuery : String)
    (s : DialogState) (h : jsTrim (effectivePrompt cp closedQuery) ≠ "") :
    submitStart cp closedQuery s =
      ({ s with loading := true, error := none, response := none }, true) := by
  unfold submitStart
  simp [h]

/-- C4 witness: from a state with a stale error and a stale response. -/
theorem submitStartClearsStateWitness :
    jsTrim (effectivePrompt (some "fix this") staleState.query) ≠ "" ∧
    submitStart (some "fix this") staleState.query staleState =
      ({ staleState with loading := true, error := none, response := none },
        true) :=
  ⟨by decide,
    submitStartClearsState (some "fix this") staleState.query staleState
      (by decide)⟩

/-- C5: selecting any intention `i` and then submitting issues a request
whose temperature is `i`'s fixed value and whose payload carries the caller's
code, the lower-cased language, the optional file name, the effective prompt
and the fixed context string; the fixed values are 0.1 / 0.2 / 0.3 / 0.7 for
fix / optimize / explain / brainstorm. -/
theorem selectedIntentionTemperaturePayload (i : Intention)
    (cp : Option String) (p : Props) (res : SubmitResult) (s : DialogState)
    (h : jsTrim (effectivePrompt cp s.query) ≠ "") :
    (handleSubmitUI cp p res (selectIntention i s)).2 =
      some { code := p.code, language := p.language.toLower,
             fileName := p.fileName, prompt := effectivePrompt cp s.query,
             context := aiContext,
             temperature := (intentionConfig i).temperature } ∧
    (intentionConfig Intention.fix).temperature = (0.1 : ℚ) ∧
    (intentionConfig Intention.optimize).temperature = (0.2 : ℚ) ∧
    (intentionConfig Intention.explain).temperature = (0.3 : ℚ) ∧
    (intentionConfig Intention.brainstorm).temperature = (0.7 : ℚ) := by
  refine ⟨?_, rfl, rfl, rfl, rfl⟩
  unfold handleSubmitUI handleSubmit submitStart selectIntention buildPayload
  simp [h]

/-- C5 witness: selecting `brainstorm` and submitting a concrete prompt. -/
theorem selectedIntentionTemperaturePayloadWitness :
    jsTrim (effectivePrompt (some "Give me ideas") initialState.query) ≠ "" ∧
    (handleSubmitUI (some "Give me ideas") demoProps (Except.ok demoResponse)
        (selectIntention Intention.brainstorm initialState)).2 =
      some { code := demoProps.code, language := demoProps.language.toLower,
             fileName := demoProps.fileName, prompt := "Give me ideas",
             context := aiContext, temperature := (0.7 : ℚ) } :=
  ⟨by decide,
    (selectedIntentionTemperaturePayload Intention.brainstorm
      (some "Give me ideas") demoProps (Except.ok demoResponse) initialState
      (by decide)).1⟩

/-- C6: applying a suggestion (with a response present, a non-empty
suggestion and a supplied apply callback): when the suggestion contains a
full-document marker (`<!DOCTYPE` or `<html`), the confirmation prompt is
shown; declining aborts — no callback invoked, dialog not closed, state
unchanged — while confirming invokes the apply callback with the exact raw
suggestion text and closes the dialog.  Without such markers, the callback is
invoked immediately with no confirmation and the dialog closes. -/
theorem applyFullDocumentConfirmFlow (s : DialogState) (r : AIResponse)
    (hr : s.response = some r) (hs : r.suggestion ≠ "") :
    (isFullDocumentSuggestion r.suggestion = true →
      handleApplySuggestion s true false = (s, ⟨true, none, false⟩) ∧
      handleApplySuggestion s true true =
        (s, ⟨true, some r.suggestion, true⟩)) ∧
    (isFullDocumentSuggestion r.suggestion = false →
      ∀ confirmAnswer,
        handleApplySuggestion s true confirmAnswer =
          (s, ⟨false, some r.suggestion, true⟩)) := by
  unfold handleApplySuggestion
  rw [hr]
  constructor
  · intro hfull
    simp [hs, hfull]
  · intro hfull confirmAnswer
    simp [hs, hfull]

/-- C6 witness: a full-document suggestion — declining leaves everything
untouched, confirming applies the raw text and closes. -/
theorem applyFullDocumentConfirmFlowWitness :
    handleApplySuggestion docState true false = (docState, ⟨true, none, false⟩) ∧
    handleApplySuggestion docState true true =
      (docState, ⟨true, some docSuggestion, true⟩) :=
  (applyFullDocumentConfirmFlow docState docResponseFull rfl (by decide)).1
    (by decide)

/-- C7: a keydown event delivers exactly one close-callback invocation when
the dialog is open and the key is Escape, and zero invocations for any key
while the dialog is closed — the listener is attached only while open. -/
theorem escapeKeyCloseBehavior (key : String) :
    escapeCloseCount true "Escape" = 1 ∧
    escapeCloseCount false key = 0 ∧
    ((key == "Escape") = false → escapeCloseCount true key = 0) := by
  unfold escapeCloseCount escapeListenerAttached handleEscape
  refine ⟨rfl, rfl, fun hk => ?_⟩
  simp [hk]

/-- C7 witness: concrete key presses. -/
theorem escapeKeyCloseBehaviorWitness :
    escapeCloseCount true "Escape" = 1 ∧
    escapeCloseCount false "a" = 0 ∧
    escapeCloseCount true "a" = 0 :=
  ⟨(escapeKeyCloseBehavior "a").1, (escapeKeyCloseBehavior "a").2.1,
    (escapeKeyCloseBehavior "a").2.2 (by decide)⟩

/-- C8: a click whose target is the backdrop element itself invokes the close
callback; a click whose target is any other element (a descendant inside the
dialog surface, with a different identity than the backdrop the handler is
attached to) does not. -/
theorem backdropClickCloseBehavior (backdropId childId : Nat)
    (h : childId ≠ backdropId) :
    backdropOnClick ⟨backdropId, backdropId⟩ = true ∧
    backdropOnClick ⟨childId, backdropId⟩ = false := by
  unfold backdropOnClick
  simp [h]

/-- C8 witness: concrete element identities. -/
theorem backdropClickCloseBehaviorWitness :
    backdropOnClick ⟨7, 7⟩ = true ∧ backdropOnClick ⟨3, 7⟩ = false :=
  backdropClickCloseBehavior 7 3 (by decide)

/-- C9: the apply action is a complete no-op — no confirmation asked, no
callback invoked, dialog not closed, state unchanged — when no apply callback
was supplied, or when the current response's suggestion is the empty
string. -/
theorem applyWithoutCallbackOrSuggestionNoop (s : DialogState)
    (hasCallback confirmAnswer : Bool)
    (h : hasCallback = false ∨ ∃ r, s.response = some r ∧ r.suggestion = "") :
    handleApplySuggestion s hasCallback confirmAnswer =
      (s, ⟨false, none, false⟩) := by
  unfold handleApplySuggestion
  rcases h with h | ⟨r, hr, hsug⟩
  · subst h
    cases hres : s.response
    · rfl
    · simp
  · rw [hr]
    simp [hsug]

/-- C9 witness: a present response with an empty suggestion and a supplied
callback. -/
theorem applyWithoutCallbackOrSuggestionNoopWitness :
    handleApplySuggestion emptySuggestionState true true =
      (emptySuggestionState, ⟨false, none, false⟩) :=
  applyWithoutCallbackOrSuggestionNoop emptySuggestionState true true
    (Or.inr ⟨⟨"", "nothing to suggest", 1⟩, rfl, rfl⟩)

/-- C10: a submission never touches the query field or the selected
intention — neither in the pre-await state nor in the final state, for either
completion outcome; only loading / response / error change. -/
theorem submitPreservesQueryIntention (cp : Option String) (p : Props)
    (res : SubmitResult) (s : DialogState) :
    (handleSubmitUI cp p res s).1.query = s.query ∧
    (handleSubmitUI cp p res s).1.intention = s.intention ∧
    (submitStart cp s.query s).1.query = s.query ∧
    (submitStart cp s.query s).1.intention = s.intention := by
  unfold handleSubmitUI handleSubmit submitStart submitComplete
  split <;> cases res <;> simp
